import Mathlib

/-!
Shallow embedding of FakePhoenixServer, from
src/src/thenvoi_testing/fakes/phoenix_server.py, together with theorems
checking the behaviour of join/leave handling, server-event injection,
lifecycle and the receive loop.
-/

/-- JSON-like Python values, as produced by json.loads and passed around
the fake server: None, booleans, integers, strings, lists, dicts. -/
inductive PyVal where
  | null : PyVal
  | bool : Bool → PyVal
  | int : Int → PyVal
  | str : String → PyVal
  | list : List PyVal → PyVal
  | obj : List (String × PyVal) → PyVal

/-- Python equality of an arbitrary value against a string literal, as in
event == "phx_join": true exactly when the value is that string. -/
def PyVal.isStrEq (v : PyVal) (t : String) : Bool :=
  match v with
  | PyVal.str u => u == t
  | _ => false

/-- The websockets Server handle stored in self.server; stop() calls
close() on it, which we record in the closed flag. -/
structure ServerHandle where
  closed : Bool

/-- State of a FakePhoenixServer instance: the fields set in __init__.
The client connection is identified by a number. -/
structure FakePhoenixServer where
  host : String
  port : Nat
  valid_topics : List String
  server : Option ServerHandle
  client_websocket : Option Nat

/-- __init__: seeds the topic allow-list with test-topic and test-topic-b,
no server object, no client connection. -/
def FakePhoenixServer.init (host : String) (port : Nat) : FakePhoenixServer :=
  { host := host
    port := port
    valid_topics := ["test-topic", "test-topic-b"]
    server := Option.none
    client_websocket := Option.none }

/-- is_valid_topic: membership of the topic in valid_topics. -/
def FakePhoenixServer.is_valid_topic (s : FakePhoenixServer) (topic : String) : Bool :=
  s.valid_topics.contains topic

/-- Payload of a successful join/leave reply. -/
def okPayload : PyVal :=
  PyVal.obj [("status", PyVal.str "ok"), ("response", PyVal.obj [])]

/-- Payload of the error reply for a join on an unknown topic. -/
def unmatchedTopicPayload : PyVal :=
  PyVal.obj [("status", PyVal.str "error"),
             ("response", PyVal.obj [("reason", PyVal.str "unmatched topic")])]

/-- The membership test topic in self.valid_topics as Python evaluates it
on an arbitrary inbound value: strings are looked up in the allow-list,
other hashable values (None, booleans, integers) are simply not members of
a set of strings, and unhashable values (lists, dicts) raise TypeError,
modelled as Option.none. -/
def pyTopicMember (s : FakePhoenixServer) (topic : PyVal) : Option Bool :=
  match topic with
  | PyVal.str t => some (s.is_valid_topic t)
  | PyVal.list _ => Option.none
  | PyVal.obj _ => Option.none
  | _ => some false

/-- handle_message: returns without sending when no client is attached or
the data is not a 5-element list; replies to phx_join according to the
allow-list; replies to phx_leave with phx_reply then phx_close, the
phx_close frame reusing join_ref in the msg_ref slot; ignores any other
event. The result pairs the (unchanged) state with the frames sent, and
Option.none models an exception escaping the method. -/
def FakePhoenixServer.handle_message (s : FakePhoenixServer) (data : PyVal) :
    Option (FakePhoenixServer × List PyVal) :=
  match s.client_websocket with
  | Option.none => some (s, [])
  | some _ =>
    match data with
    | PyVal.list [join_ref, msg_ref, topic, event, _payload] =>
      if event.isStrEq "phx_join" then
        match pyTopicMember s topic with
        | Option.none => Option.none
        | some true =>
            some (s, [PyVal.list [join_ref, msg_ref, topic,
                                  PyVal.str "phx_reply", okPayload]])
        | some false =>
            some (s, [PyVal.list [join_ref, msg_ref, topic,
                                  PyVal.str "phx_reply", unmatchedTopicPayload]])
      else if event.isStrEq "phx_leave" then
        some (s, [PyVal.list [join_ref, msg_ref, topic,
                              PyVal.str "phx_reply", okPayload],
                  PyVal.list [join_ref, join_ref, topic,
                              PyVal.str "phx_close", PyVal.obj []]])
      else
        some (s, [])
    | _ => some (s, [])

/-- Conversion of an optional string argument to the Python value placed
in a frame. -/
def optStr : Option String → PyVal
  | Option.none => PyVal.null
  | some t => PyVal.str t

/-- simulate_server_event: when a connection is attached, sends the single
frame [join_ref, None, topic, event, payload]; otherwise does nothing. -/
def FakePhoenixServer.simulate_server_event (s : FakePhoenixServer)
    (topic : String) (event : String) (payload : PyVal)
    (join_ref : Option String) : FakePhoenixServer × List PyVal :=
  match s.client_websocket with
  | some _ => (s, [PyVal.list [optStr join_ref, PyVal.null,
                               PyVal.str topic, PyVal.str event, payload]])
  | Option.none => (s, [])

/-- start: stores a fresh server handle obtained from serve. -/
def FakePhoenixServer.start (s : FakePhoenixServer) : FakePhoenixServer :=
  { s with server := some { closed := false } }

/-- stop: closes the server object when one exists, otherwise does
nothing. -/
def FakePhoenixServer.stop (s : FakePhoenixServer) : FakePhoenixServer :=
  match s.server with
  | Option.none => s
  | some srv => { s with server := some { srv with closed := true } }

/-- url: the WebSocket URL derived from host and port. -/
def FakePhoenixServer.url (s : FakePhoenixServer) : String :=
  "ws://" ++ s.host ++ ":" ++ toString s.port ++ "/socket/websocket"

/-- Body of the receive loop in handler: each inbound message either
decodes to a value (some) or raises while being received or decoded
(Option.none). An exception from json.loads or handle_message is caught by
the surrounding try/except, ending the loop quietly. Returns the state
after the loop and all frames sent. -/
def handlerLoop (s : FakePhoenixServer) (msgs : List (Option PyVal)) :
    FakePhoenixServer × List PyVal :=
  match msgs with
  | [] => (s, [])
  | Option.none :: _ => (s, [])
  | some m :: rest =>
    match s.handle_message m with
    | Option.none => (s, [])
    | some (s1, frames) =>
      let r := handlerLoop s1 rest
      (r.1, frames ++ r.2)

/-- handler: stores the accepted connection in client_websocket, then runs
the receive loop over the inbound messages. -/
def FakePhoenixServer.handler (s : FakePhoenixServer) (websocket : Nat)
    (msgs : List (Option PyVal)) : FakePhoenixServer × List PyVal :=
  handlerLoop { s with client_websocket := some websocket } msgs

/-- Predicate: the value is a 5-element list, the only shape
handle_message does not discard up front. -/
def wellFormed5 : PyVal → Bool
  | PyVal.list l => l.length == 5
  | _ => false

/-- A server as built by __init__ with a client connection attached, used
to instantiate the theorems below at concrete inputs. -/
def sampleServer : FakePhoenixServer :=
  { FakePhoenixServer.init "localhost" 8765 with client_websocket := some 0 }

/-- isStrEq decides equality with the string value. -/
theorem PyVal.isStrEq_iff (v : PyVal) (t : String) :
    v.isStrEq t = true ↔ v = PyVal.str t := by
  cases v <;> simp [PyVal.isStrEq]

/-- handle_message never changes the server state: every successful run
returns the state it was given. -/
theorem handle_message_state_eq (s : FakePhoenixServer) (d : PyVal)
    (s1 : FakePhoenixServer) (frames : List PyVal)
    (h : s.handle_message d = some (s1, frames)) : s1 = s := by
  unfold FakePhoenixServer.handle_message at h
  repeat' split at h
  all_goals simp_all

/-- simulate_server_event never changes the server state. -/
theorem simulate_server_event_state_eq (s : FakePhoenixServer)
    (topic ev : String) (payload : PyVal) (join_ref : Option String) :
    (s.simulate_server_event topic ev payload join_ref).1 = s := by
  unfold FakePhoenixServer.simulate_server_event
  split <;> rfl

/-- The receive loop leaves the server state where it started. -/
theorem handlerLoop_state (msgs : List (Option PyVal)) (s : FakePhoenixServer) :
    (handlerLoop s msgs).1 = s := by
  induction msgs generalizing s with
  | nil => rfl
  | cons hd rest ih =>
    cases hd with
    | none => rfl
    | some m =>
      cases h : s.handle_message m with
      | none => simp [handlerLoop, h]
      | some r =>
        obtain ⟨s1, frames⟩ := r
        have hs : s1 = s := handle_message_state_eq s m s1 frames h
        simp [handlerLoop, h, ih, hs]

/-- C1: with a client connected, a phx_join envelope for a topic in the
allow-list is answered by exactly one phx_reply frame with the ok payload,
and for a topic outside the allow-list by exactly one phx_reply frame with
the unmatched-topic error payload. -/
theorem join_reply_exactly_one (s : FakePhoenixServer) (c : Nat)
    (hc : s.client_websocket = some c) (jr mr pl : PyVal) (t : String) :
    (t ∈ s.valid_topics →
      s.handle_message (PyVal.list [jr, mr, PyVal.str t, PyVal.str "phx_join", pl]) =
        some (s, [PyVal.list [jr, mr, PyVal.str t, PyVal.str "phx_reply", okPayload]])) ∧
    (t ∉ s.valid_topics →
      s.handle_message (PyVal.list [jr, mr, PyVal.str t, PyVal.str "phx_join", pl]) =
        some (s, [PyVal.list [jr, mr, PyVal.str t, PyVal.str "phx_reply",
          unmatchedTopicPayload]])) := by
  constructor <;> intro ht <;>
    simp [FakePhoenixServer.handle_message, hc, pyTopicMember,
      FakePhoenixServer.is_valid_topic, PyVal.isStrEq, List.contains,
      List.elem_eq_mem, ht]

/-- C1 witness: on the sample server, joining test-topic yields the single
ok reply and joining an unknown topic yields the single error reply. -/
theorem join_reply_exactly_one_witness :
    sampleServer.handle_message (PyVal.list [PyVal.str "1", PyVal.str "2",
        PyVal.str "test-topic", PyVal.str "phx_join", PyVal.obj []]) =
      some (sampleServer, [PyVal.list [PyVal.str "1", PyVal.str "2",
        PyVal.str "test-topic", PyVal.str "phx_reply", okPayload]]) ∧
    sampleServer.handle_message (PyVal.list [PyVal.str "1", PyVal.str "2",
        PyVal.str "nope", PyVal.str "phx_join", PyVal.obj []]) =
      some (sampleServer, [PyVal.list [PyVal.str "1", PyVal.str "2",
        PyVal.str "nope", PyVal.str "phx_reply", unmatchedTopicPayload]]) :=
  ⟨(join_reply_exactly_one sampleServer 0 rfl (PyVal.str "1") (PyVal.str "2")
      (PyVal.obj []) "test-topic").1 (by decide),
   (join_reply_exactly_one sampleServer 0 rfl (PyVal.str "1") (PyVal.str "2")
      (PyVal.obj []) "nope").2 (by decide)⟩

/-- C2: with a client connected, a phx_leave envelope for any topic is
answered by exactly two frames in order: a phx_reply echoing join_ref,
msg_ref and topic with the ok payload, then a phx_close frame with empty
payload whose msg_ref slot holds the join_ref of the request. -/
theorem leave_reply_then_close (s : FakePhoenixServer) (c : Nat)
    (hc : s.client_websocket = some c) (jr mr tp pl : PyVal) :
    s.handle_message (PyVal.list [jr, mr, tp, PyVal.str "phx_leave", pl]) =
      some (s, [PyVal.list [jr, mr, tp, PyVal.str "phx_reply", okPayload],
                PyVal.list [jr, jr, tp, PyVal.str "phx_close", PyVal.obj []]]) := by
  simp [FakePhoenixServer.handle_message, hc, PyVal.isStrEq]

/-- C2 witness: a concrete leave on the sample server, with distinct
join_ref and msg_ref so the close frame visibly carries the join_ref. -/
theorem leave_reply_then_close_witness :
    sampleServer.handle_message (PyVal.list [PyVal.str "j7", PyVal.str "m9",
        PyVal.str "any-topic", PyVal.str "phx_leave", PyVal.obj []]) =
      some (sampleServer, [PyVal.list [PyVal.str "j7", PyVal.str "m9",
        PyVal.str "any-topic", PyVal.str "phx_reply", okPayload],
        PyVal.list [PyVal.str "j7", PyVal.str "j7",
        PyVal.str "any-topic", PyVal.str "phx_close", PyVal.obj []]]) :=
  leave_reply_then_close sampleServer 0 rfl (PyVal.str "j7") (PyVal.str "m9")
    (PyVal.str "any-topic") (PyVal.obj [])

/-- C3: every reply frame sent by handle_message, for phx_join in either
outcome and for the phx_reply answering phx_leave, carries the inbound
join_ref, msg_ref and topic unchanged in its first three positions and the
fixed event phx_reply in the fourth. -/
theorem reply_frames_echo_envelope (s : FakePhoenixServer) (c : Nat)
    (hc : s.client_websocket = some c) (jr mr pl : PyVal) (t : String) :
    (∃ p, s.handle_message
        (PyVal.list [jr, mr, PyVal.str t, PyVal.str "phx_join", pl]) =
      some (s, [PyVal.list [jr, mr, PyVal.str t, PyVal.str "phx_reply", p]])) ∧
    (∃ p rest, s.handle_message
        (PyVal.list [jr, mr, PyVal.str t, PyVal.str "phx_leave", pl]) =
      some (s, PyVal.list [jr, mr, PyVal.str t, PyVal.str "phx_reply", p] :: rest)) := by
  constructor
  · cases hvt : s.is_valid_topic t with
    | true =>
      exact ⟨okPayload, by
        simp [FakePhoenixServer.handle_message, hc, pyTopicMember, PyVal.isStrEq, hvt]⟩
    | false =>
      exact ⟨unmatchedTopicPayload, by
        simp [FakePhoenixServer.handle_message, hc, pyTopicMember, PyVal.isStrEq, hvt]⟩
  · exact ⟨okPayload,
      [PyVal.list [jr, jr, PyVal.str t, PyVal.str "phx_close", PyVal.obj []]], by
      simp [FakePhoenixServer.handle_message, hc, PyVal.isStrEq]⟩

/-- C3 witness: instance of the echo property on the sample server with
concrete correlation tokens and topic. -/
theorem reply_frames_echo_envelope_witness :
    (∃ p, sampleServer.handle_message (PyVal.list [PyVal.str "a", PyVal.str "b",
        PyVal.str "test-topic-b", PyVal.str "phx_join", PyVal.obj []]) =
      some (sampleServer, [PyVal.list [PyVal.str "a", PyVal.str "b",
        PyVal.str "test-topic-b", PyVal.str "phx_reply", p]])) ∧
    (∃ p rest, sampleServer.handle_message (PyVal.list [PyVal.str "a", PyVal.str "b",
        PyVal.str "test-topic-b", PyVal.str "phx_leave", PyVal.obj []]) =
      some (sampleServer, PyVal.list [PyVal.str "a", PyVal.str "b",
        PyVal.str "test-topic-b", PyVal.str "phx_reply", p] :: rest)) :=
  reply_frames_echo_envelope sampleServer 0 rfl (PyVal.str "a") (PyVal.str "b")
    (PyVal.obj []) "test-topic-b"

/-- C4: an input that is not a 5-element list is discarded with no frames
sent and no error, and a well-formed 5-element envelope whose event is
neither phx_join nor phx_leave likewise produces no frames and no error. -/
theorem unhandled_input_silence (s : FakePhoenixServer) :
    (∀ d : PyVal, wellFormed5 d = false → s.handle_message d = some (s, [])) ∧
    (∀ jr mr tp ev pl : PyVal, ev ≠ PyVal.str "phx_join" →
      ev ≠ PyVal.str "phx_leave" →
      s.handle_message (PyVal.list [jr, mr, tp, ev, pl]) = some (s, [])) := by
  constructor
  · intro d hd
    cases hcw : s.client_websocket with
    | none => simp [FakePhoenixServer.handle_message, hcw]
    | some c =>
      cases d with
      | null => simp [FakePhoenixServer.handle_message, hcw]
      | bool b => simp [FakePhoenixServer.handle_message, hcw]
      | int n => simp [FakePhoenixServer.handle_message, hcw]
      | str u => simp [FakePhoenixServer.handle_message, hcw]
      | obj o => simp [FakePhoenixServer.handle_message, hcw]
      | list l =>
        rcases l with _ | ⟨a, _ | ⟨b, _ | ⟨c2, _ | ⟨d2, _ | ⟨e2, _ | ⟨f2, rest⟩⟩⟩⟩⟩⟩ <;>
          simp_all [FakePhoenixServer.handle_message, hcw, wellFormed5]
  · intro jr mr tp ev pl hj hl
    cases hcw : s.client_websocket with
    | none => simp [FakePhoenixServer.handle_message, hcw]
    | some c =>
      have hj2 : ev.isStrEq "phx_join" = false := by
        rw [Bool.eq_false_iff]
        intro hx
        exact hj ((PyVal.isStrEq_iff ev "phx_join").mp hx)
      have hl2 : ev.isStrEq "phx_leave" = false := by
        rw [Bool.eq_false_iff]
        intro hx
        exact hl ((PyVal.isStrEq_iff ev "phx_leave").mp hx)
      simp [FakePhoenixServer.handle_message, hcw, hj2, hl2]

/-- C4 witness: a 3-element list, a bare string, and an envelope with the
unrecognized event heartbeat all produce no frames on the sample server. -/
theorem unhandled_input_silence_witness :
    sampleServer.handle_message (PyVal.list [PyVal.str "1", PyVal.str "2",
        PyVal.str "t"]) = some (sampleServer, []) ∧
    sampleServer.handle_message (PyVal.str "hello") = some (sampleServer, []) ∧
    sampleServer.handle_message (PyVal.list [PyVal.str "1", PyVal.str "2",
        PyVal.str "t", PyVal.str "heartbeat", PyVal.obj []]) =
      some (sampleServer, []) :=
  ⟨(unhandled_input_silence sampleServer).1
      (PyVal.list [PyVal.str "1", PyVal.str "2", PyVal.str "t"]) (by rfl),
   (unhandled_input_silence sampleServer).1 (PyVal.str "hello") (by rfl),
   (unhandled_input_silence sampleServer).2 (PyVal.str "1") (PyVal.str "2")
      (PyVal.str "t") (PyVal.str "heartbeat") (PyVal.obj [])
      (by simp) (by simp)⟩

/-- C5: with no client connection attached, simulate_server_event sends
nothing, raises nothing and leaves the state unchanged. -/
theorem simulate_event_no_connection (s : FakePhoenixServer)
    (h : s.client_websocket = Option.none) (topic ev : String)
    (payload : PyVal) (join_ref : Option String) :
    s.simulate_server_event topic ev payload join_ref = (s, []) := by
  simp [FakePhoenixServer.simulate_server_event, h]

/-- C5 witness: injecting an event on a freshly constructed server, before
any client has connected, is a silent no-op. -/
theorem simulate_event_no_connection_witness :
    (FakePhoenixServer.init "localhost" 8765).simulate_server_event
        "test-topic" "new_message" (PyVal.obj [("text", PyVal.str "hello")])
        Option.none =
      (FakePhoenixServer.init "localhost" 8765, []) :=
  simulate_event_no_connection (FakePhoenixServer.init "localhost" 8765) rfl
    "test-topic" "new_message" (PyVal.obj [("text", PyVal.str "hello")])
    Option.none

/-- C6: with a client connected, simulate_server_event sends exactly one
frame [join_ref, None, topic, event, payload]; the msg_ref slot is always
None. -/
theorem simulate_event_frame (s : FakePhoenixServer) (c : Nat)
    (hc : s.client_websocket = some c) (topic ev : String)
    (payload : PyVal) (join_ref : Option String) :
    s.simulate_server_event topic ev payload join_ref =
      (s, [PyVal.list [optStr join_ref, PyVal.null,
                       PyVal.str topic, PyVal.str ev, payload]]) := by
  simp [FakePhoenixServer.simulate_server_event, hc]

/-- C6 witness: the end-to-end example frame, with join_ref left at None:
the client receives [None, None, test-topic, new_message, the payload]. -/
theorem simulate_event_frame_witness :
    sampleServer.simulate_server_event "test-topic" "new_message"
        (PyVal.obj [("text", PyVal.str "hello")]) Option.none =
      (sampleServer, [PyVal.list [PyVal.null, PyVal.null,
        PyVal.str "test-topic", PyVal.str "new_message",
        PyVal.obj [("text", PyVal.str "hello")]]]) :=
  simulate_event_frame sampleServer 0 rfl "test-topic" "new_message"
    (PyVal.obj [("text", PyVal.str "hello")]) Option.none

/-- C7: calling stop when start was never called, so no server object
exists, is a no-op that changes no field and raises nothing. -/
theorem stop_without_start_noop (s : FakePhoenixServer)
    (h : s.server = Option.none) : s.stop = s := by
  simp [FakePhoenixServer.stop, h]

/-- C7 witness: stop on a freshly constructed server returns it
unchanged. -/
theorem stop_without_start_noop_witness :
    (FakePhoenixServer.init "localhost" 8765).stop =
      FakePhoenixServer.init "localhost" 8765 :=
  stop_without_start_noop (FakePhoenixServer.init "localhost" 8765) rfl

/-- C8: whatever inbound messages the receive loop sees, including one
that raises while being received or handled, the loop ends quietly and the
stored connection reference still holds the accepted connection: it is not
cleared. -/
theorem handler_keeps_connection (s : FakePhoenixServer) (ws : Nat)
    (msgs : List (Option PyVal)) :
    (s.handler ws msgs).1 = { s with client_websocket := some ws } := by
  unfold FakePhoenixServer.handler
  exact handlerLoop_state msgs _

/-- C9: with no client connection attached, handle_message is a silent
no-op on every input: no frames, no exception, state unchanged. -/
theorem handle_message_no_connection (s : FakePhoenixServer)
    (h : s.client_websocket = Option.none) (d : PyVal) :
    s.handle_message d = some (s, []) := by
  simp [FakePhoenixServer.handle_message, h]

/-- C9 witness: a well-formed join envelope on a freshly constructed
server with no connection produces nothing. -/
theorem handle_message_no_connection_witness :
    (FakePhoenixServer.init "localhost" 8765).handle_message
        (PyVal.list [PyVal.str "1", PyVal.str "2", PyVal.str "test-topic",
          PyVal.str "phx_join", PyVal.obj []]) =
      some (FakePhoenixServer.init "localhost" 8765, []) :=
  handle_message_no_connection (FakePhoenixServer.init "localhost" 8765) rfl
    (PyVal.list [PyVal.str "1", PyVal.str "2", PyVal.str "test-topic",
      PyVal.str "phx_join", PyVal.obj []])

/-- C10: the allow-list is seeded at construction with exactly test-topic
and test-topic-b, and handle_message, simulate_server_event and
is_valid_topic never change valid_topics, host or port, so is_valid_topic
answers the same for a given topic throughout. -/
theorem config_fields_immutable :
    (∀ host port, (FakePhoenixServer.init host port).valid_topics =
      ["test-topic", "test-topic-b"]) ∧
    (∀ (s : FakePhoenixServer) (d : PyVal) (r : FakePhoenixServer × List PyVal),
      s.handle_message d = some r →
      r.1.valid_topics = s.valid_topics ∧ r.1.host = s.host ∧ r.1.port = s.port) ∧
    (∀ (s : FakePhoenixServer) (topic ev : String) (payload : PyVal)
      (join_ref : Option String),
      (s.simulate_server_event topic ev payload join_ref).1.valid_topics =
          s.valid_topics ∧
        (s.simulate_server_event topic ev payload join_ref).1.host = s.host ∧
        (s.simulate_server_event topic ev payload join_ref).1.port = s.port) ∧
    (∀ (s : FakePhoenixServer) (d : PyVal) (r : FakePhoenixServer × List PyVal),
      s.handle_message d = some r →
      ∀ t, r.1.is_valid_topic t = s.is_valid_topic t) := by
  refine ⟨fun host port => rfl, fun s d r h => ?_, fun s topic ev payload join_ref => ?_,
    fun s d r h t => ?_⟩
  · rw [handle_message_state_eq s d r.1 r.2 (by rw [Prod.mk.eta]; exact h)]
    exact ⟨rfl, rfl, rfl⟩
  · rw [simulate_server_event_state_eq s topic ev payload join_ref]
    exact ⟨rfl, rfl, rfl⟩
  · rw [handle_message_state_eq s d r.1 r.2 (by rw [Prod.mk.eta]; exact h)]

/-- C10 witness: the fresh allow-list, and preservation across a concrete
join and a concrete injected event on the sample server. -/
theorem config_fields_immutable_witness :
    (FakePhoenixServer.init "localhost" 8765).valid_topics =
      ["test-topic", "test-topic-b"] ∧
    (sampleServer.valid_topics = sampleServer.valid_topics ∧
      sampleServer.host = sampleServer.host ∧
      sampleServer.port = sampleServer.port) ∧
    ∀ t, sampleServer.is_valid_topic t = sampleServer.is_valid_topic t :=
  ⟨config_fields_immutable.1 "localhost" 8765,
   config_fields_immutable.2.1 sampleServer
     (PyVal.list [PyVal.str "1", PyVal.str "2", PyVal.str "test-topic",
       PyVal.str "phx_join", PyVal.obj []])
     (sampleServer, [PyVal.list [PyVal.str "1", PyVal.str "2",
       PyVal.str "test-topic", PyVal.str "phx_reply", okPayload]]) (by rfl),
   config_fields_immutable.2.2.2 sampleServer
     (PyVal.list [PyVal.str "1", PyVal.str "2", PyVal.str "test-topic",
       PyVal.str "phx_join", PyVal.obj []])
     (sampleServer, [PyVal.list [PyVal.str "1", PyVal.str "2",
       PyVal.str "test-topic", PyVal.str "phx_reply", okPayload]]) (by rfl)⟩
